import Mathlib

/-!
Shallow embedding of the object-placement core of strands_morse
(src/strand_morse/object_placement.py): bounding boxes, anchor grids,
containment and collision tests, directional distance ranges and the
bounded rejection-sampling placement loop, together with theorems
checking the natural-language specification against the code.

Geometry is modelled over the rationals (the Python code computes with
floats; every claim here is about exact arithmetic identities and
comparisons, which the rationals capture).  The diagonal distance ranges
use a real square root, so those values live in the reals.
-/

/-- Constant MAX_NUM_OF_SAMPLES = 100 (object_placement.py line 26): the
attempt budget of every rejection-sampling loop. -/
def MAX_NUM_OF_SAMPLES : Nat := 100

/-- Constant OBJECT_SCALE = 1.00 (object_placement.py line 37): scale factor
applied to an object's minimum planar dimension in the containment margin. -/
def OBJECT_SCALE : ℚ := 1

/-- Axis-aligned bounding box, the six extents stored by class BBox
(object_placement.py lines 93-110); the get_* accessors of the source are
plain field projections here. -/
structure BBox where
  x_min : ℚ
  x_max : ℚ
  y_min : ℚ
  y_max : ℚ
  z_min : ℚ
  z_max : ℚ
deriving DecidableEq, Repr

/-- Outcome of running BBox.__init__ on a list of corner points.  The source
indexes the sorted corner list at positions 0 and 7; on fewer than 8 points
Python raises its built-in IndexError.  The spec instead names a dedicated
InvalidGeometry error; that error class does not exist anywhere in the code,
so it appears here only as a second constructor that the embedding of the
code never produces. -/
inductive GeometryError where
  | indexOutOfRange
  | invalidGeometry
deriving DecidableEq, Repr

/-- Embedding of BBox.__init__ (object_placement.py lines 96-110): sort the
corner points by each coordinate and read the extents off positions 0 and 7
of the sorted lists.  A lookup outside the list is Python's IndexError. -/
def mkBBox (bbox : List (ℚ × ℚ × ℚ)) : Except GeometryError BBox :=
  let x_sorted := bbox.mergeSort (fun a b => a.1 ≤ b.1)
  let y_sorted := bbox.mergeSort (fun a b => a.2.1 ≤ b.2.1)
  let z_sorted := bbox.mergeSort (fun a b => a.2.2 ≤ b.2.2)
  match x_sorted[0]?, x_sorted[7]?, y_sorted[0]?, y_sorted[7]?,
        z_sorted[0]?, z_sorted[7]? with
  | some x0, some x7, some y0, some y7, some z0, some z7 =>
      Except.ok ⟨x0.1, x7.1, y0.2.1, y7.2.1, z0.2.2, z7.2.2⟩
  | _, _, _, _, _, _ => Except.error GeometryError.indexOutOfRange

/-- Embedding of RootNode.within_root_bbox (object_placement.py lines
205-217).  self_bbox is the root surface's local bounding box, object_bbox
the candidate child's local bounding box; (x, y) the candidate position. -/
def within_root_bbox (self_bbox object_bbox : BBox) (x y : ℚ) : Bool :=
  let min_xy_dim :=
    min (object_bbox.x_max - object_bbox.x_min)
        (object_bbox.y_max - object_bbox.y_min) * OBJECT_SCALE
  if self_bbox.x_min + min_xy_dim < x ∧
     x < self_bbox.x_max - min_xy_dim ∧
     self_bbox.y_min + min_xy_dim < y ∧
     y < self_bbox.y_max - min_xy_dim then
    true
  else
    false

/-- Embedding of RootNode.in_collision (object_placement.py lines 219-234):
scan the recorded world bounding boxes (the values of self.global_bboxes)
for a 2D overlap with the query box. -/
def in_collision (global_bboxes : List BBox) (bbox : BBox) : Bool :=
  global_bboxes.any fun bbox2 =>
    decide (bbox.x_max ≥ bbox2.x_min ∧
            bbox.x_min ≤ bbox2.x_max ∧
            bbox.y_max ≥ bbox2.y_min ∧
            bbox.y_min ≤ bbox2.y_max)

/-- Anchor grid and Gaussian sampling variances computed by
AbstractNode.calc_anchors (object_placement.py lines 144-161). -/
structure Anchors where
  x_sigma : ℚ
  y_sigma : ℚ
  north : ℚ × ℚ
  north_east : ℚ × ℚ
  east : ℚ × ℚ
  south_east : ℚ × ℚ
  south : ℚ × ℚ
  south_west : ℚ × ℚ
  west : ℚ × ℚ
  north_west : ℚ × ℚ
  center : ℚ × ℚ
deriving DecidableEq, Repr

/-- Embedding of AbstractNode.calc_anchors (object_placement.py lines
144-161): divide the local bounding box into sixths per axis and place the
nine named anchors at {1,3,5}-sixth combinations from the min corner. -/
def calc_anchors (b : BBox) : Anchors :=
  let x := (b.x_max - b.x_min) / 6
  let y := (b.y_max - b.y_min) / 6
  { x_sigma := x * x
    y_sigma := y * y
    north := (b.x_min + 1 * x, b.y_min + 3 * y)
    north_east := (b.x_min + 1 * x, b.y_min + 5 * y)
    east := (b.x_min + 3 * x, b.y_min + 5 * y)
    south_east := (b.x_min + 5 * x, b.y_min + 5 * y)
    south := (b.x_min + 5 * x, b.y_min + 3 * y)
    south_west := (b.x_min + 5 * x, b.y_min + 1 * y)
    west := (b.x_min + 3 * x, b.y_min + 1 * y)
    north_west := (b.x_min + 1 * x, b.y_min + 1 * y)
    center := (b.x_min + 3 * x, b.y_min + 3 * y) }

/-- Embedding of AbstractNode.get_anchor (object_placement.py lines
163-181): string dispatch over the eight compass names, every other string
falling through to the center anchor. -/
def get_anchor (a : Anchors) (anchor : String) : ℚ × ℚ :=
  if anchor = "north" then a.north
  else if anchor = "north_east" then a.north_east
  else if anchor = "east" then a.east
  else if anchor = "south_east" then a.south_east
  else if anchor = "south" then a.south
  else if anchor = "south_west" then a.south_west
  else if anchor = "west" then a.west
  else if anchor = "north_west" then a.north_west
  else a.center

/-- Direction angle right = 0 set by ObjectNode.init_directions
(object_placement.py line 321). -/
noncomputable def direction_right : ℝ := 0

/-- Direction angle right_front = pi/4 (object_placement.py line 322). -/
noncomputable def direction_right_front : ℝ := Real.pi / 4

/-- Direction angle front = pi/2 (object_placement.py line 323). -/
noncomputable def direction_front : ℝ := Real.pi / 2

/-- Direction angle left_front = 3pi/4 (object_placement.py line 324). -/
noncomputable def direction_left_front : ℝ := 3 * Real.pi / 4

/-- Direction angle left = pi (object_placement.py line 325). -/
noncomputable def direction_left : ℝ := Real.pi

/-- Direction angle left_back = 5pi/4 (object_placement.py line 326). -/
noncomputable def direction_left_back : ℝ := 5 * Real.pi / 4

/-- Direction angle back = 3pi/2 (object_placement.py line 327). -/
noncomputable def direction_back : ℝ := 3 * Real.pi / 2

/-- Direction angle right_back = 7pi/4 (object_placement.py line 328). -/
noncomputable def direction_right_back : ℝ := 7 * Real.pi / 4

/-- Embedding of ObjectNode.get_direction (object_placement.py lines
330-346): string dispatch over seven direction names, every other string
falling through to the front angle. -/
noncomputable def get_direction (direction : String) : ℝ :=
  if direction = "back" then direction_back
  else if direction = "right_back" then direction_right_back
  else if direction = "right" then direction_right
  else if direction = "right_front" then direction_right_front
  else if direction = "left_front" then direction_left_front
  else if direction = "left" then direction_left
  else if direction = "left_back" then direction_left_back
  else direction_front

/-- Direction dispatch of ObjectNode.calc_distance_range
(object_placement.py lines 348-407), before the close narrowing.  x, y is
this node's recorded world position, obj_bbox its recorded world bounding
box, root_bbox the root surface's world bounding box, direction the relation
label stored for the child, and object_bbox the child's local bounding box.
The diagonal branches take a real square root, so the result lives in the
reals. -/
noncomputable def calc_distance_base (x y : ℚ) (obj_bbox root_bbox : BBox)
    (direction : String) (object_bbox : BBox) : ℝ × ℝ :=
  let min_xy_dim : ℚ :=
    min (object_bbox.x_max - object_bbox.x_min)
        (object_bbox.y_max - object_bbox.y_min) * OBJECT_SCALE / 2
  if direction = "back" then
      ((x - obj_bbox.x_min + min_xy_dim : ℚ),
       (x - root_bbox.x_min - min_xy_dim : ℚ))
    else if direction = "right_back" then
      (Real.sqrt (2 * (min (x - obj_bbox.x_min) (obj_bbox.y_max - y) : ℚ) ^ 2)
         + (min_xy_dim : ℝ),
       Real.sqrt (2 * (min (x - root_bbox.x_min) (root_bbox.y_max - y) : ℚ) ^ 2)
         - (min_xy_dim : ℝ))
    else if direction = "right" then
      ((obj_bbox.y_max - y + min_xy_dim : ℚ),
       (root_bbox.y_max - y - min_xy_dim : ℚ))
    else if direction = "right_front" then
      (Real.sqrt (2 * (min (obj_bbox.x_max - x) (obj_bbox.y_max - y) : ℚ) ^ 2)
         + (min_xy_dim : ℝ),
       Real.sqrt (2 * (min (root_bbox.x_max - x) (root_bbox.y_max - y) : ℚ) ^ 2)
         - (min_xy_dim : ℝ))
    else if direction = "left_front" then
      (Real.sqrt (2 * (min (obj_bbox.x_max - x) (y - obj_bbox.y_min) : ℚ) ^ 2)
         + (min_xy_dim : ℝ),
       Real.sqrt (2 * (min (root_bbox.x_max - x) (y - root_bbox.y_min) : ℚ) ^ 2)
         - (min_xy_dim : ℝ))
    else if direction = "left" then
      ((y - obj_bbox.y_min + min_xy_dim : ℚ),
       (y - root_bbox.y_min - min_xy_dim : ℚ))
    else if direction = "left_back" then
      (Real.sqrt (2 * (min (x - obj_bbox.x_min) (y - obj_bbox.y_min) : ℚ) ^ 2)
         + (min_xy_dim : ℝ),
       Real.sqrt (2 * (min (x - root_bbox.x_min) (y - root_bbox.y_min) : ℚ) ^ 2)
         - (min_xy_dim : ℝ))
  else
    ((obj_bbox.x_max - x + min_xy_dim : ℚ),
     (root_bbox.x_max - x - min_xy_dim : ℚ))

/-- Embedding of ObjectNode.calc_distance_range (object_placement.py lines
348-412): the direction dispatch of calc_distance_base followed by the
conditional reassignment of max_dist for the close distance class
(lines 409-410). -/
noncomputable def calc_distance_range (x y : ℚ) (obj_bbox root_bbox : BBox)
    (direction distance : String) (object_bbox : BBox) : ℝ × ℝ :=
  let p := calc_distance_base x y obj_bbox root_bbox direction object_bbox
  let max_dist : ℝ :=
    if distance = "close" then ((p.2 + p.1) / 2 + p.1) / 2 else p.2
  (p.1, max_dist)

/-- Candidate pose drawn in one iteration of a placement loop: the sampled
planar position, and the world bounding box that the backend reports for the
object once the pose is applied. -/
structure Candidate where
  x : ℚ
  y : ℚ
  world_bbox : BBox
deriving DecidableEq, Repr

/-- Acceptance test applied to one candidate by the loop bodies of
RootNode.place_objects (object_placement.py lines 253 and 267) and
ObjectNode.place_children (lines 458 and 474): the candidate position passes
within_root_bbox against the root surface, and the resulting world bounding
box is not in collision with the previously recorded ones. -/
def accept_candidate (root_local_bbox : BBox) (global_bboxes : List BBox)
    (child_local_bbox : BBox) (c : Candidate) : Bool :=
  within_root_bbox root_local_bbox child_local_bbox c.x c.y &&
    ! in_collision global_bboxes c.world_bbox

/-- Rejection-sampling loop shared by RootNode.place_objects
(object_placement.py lines 246-275) and ObjectNode.place_children (lines
437-482): while i < MAX_NUM_OF_SAMPLES, test candidate i; on acceptance
break with the counter unchanged, otherwise increment.  The while loop is
embedded with an explicit fuel argument, MAX_NUM_OF_SAMPLES - i, so fuel = 0
is exactly the failure of the loop guard; the returned value is the final
value of the counter i. -/
def place_loop (accept : Nat → Bool) : Nat → Nat → Nat
  | i, 0 => i
  | i, fuel + 1 => if accept i then i else place_loop accept (i + 1) fuel

/-- Placement of one child, as done for each child by
RootNode.place_objects (object_placement.py lines 246-278) and
ObjectNode.place_children (lines 437-485): run the loop from i = 0, and
raise PlacementException carrying the child's name when the loop left
i at MAX_NUM_OF_SAMPLES or beyond; otherwise the accepted attempt index. -/
def place_object (accept : Nat → Bool) (name : String) : Except String Nat :=
  let i := place_loop accept 0 MAX_NUM_OF_SAMPLES
  if MAX_NUM_OF_SAMPLES ≤ i then Except.error name else Except.ok i

/-- Deterministic core of the distance draw dist = random.uniform(min_dist,
max_dist) in ObjectNode.place_children (object_placement.py line 447), with
the random fraction t in [0, 1] made explicit: Python's uniform(a, b)
returns a + (b - a) * t and applies no check of a ≤ b, so an inverted
interval is sampled silently. -/
def place_children_sample (min_dist max_dist t : ℝ) : ℝ :=
  min_dist + (max_dist - min_dist) * t

/-- Replacement of only the z extents of a bounding box; used to state that
the collision test never reads them. -/
def set_z (b : BBox) (zmin zmax : ℚ) : BBox := { b with z_min := zmin, z_max := zmax }

/-- Characterisation of place_loop: either every candidate in the budget is
rejected and the counter comes back as i + fuel, or the loop stops at the
first accepted candidate. -/
theorem place_loop_cases (accept : Nat → Bool) (fuel : Nat) : ∀ i : Nat,
    (place_loop accept i fuel = i + fuel ∧
      ∀ k, i ≤ k → k < i + fuel → accept k = false) ∨
    (i ≤ place_loop accept i fuel ∧ place_loop accept i fuel < i + fuel ∧
      accept (place_loop accept i fuel) = true ∧
      ∀ k, i ≤ k → k < place_loop accept i fuel → accept k = false) := by
  induction fuel with
  | zero =>
    intro i
    left
    refine ⟨rfl, ?_⟩
    intro k hk1 hk2
    omega
  | succ n ih =>
    intro i
    by_cases h : accept i = true
    · right
      have hstep : place_loop accept i (n + 1) = i := by
        simp [place_loop, h]
      rw [hstep]
      exact ⟨le_rfl, by omega, h, fun k hk1 hk2 => by omega⟩
    · have h' : accept i = false := by simpa using h
      have hstep : place_loop accept i (n + 1) = place_loop accept (i + 1) n := by
        simp [place_loop, h']
      rw [hstep]
      rcases ih (i + 1) with ⟨heq, hall⟩ | ⟨hge, hlt, hacc, hmin⟩
      · left
        refine ⟨by omega, ?_⟩
        intro k hk1 hk2
        rcases Nat.eq_or_lt_of_le hk1 with rfl | hk1'
        · exact h'
        · exact hall k (by omega) (by omega)
      · right
        refine ⟨by omega, by omega, hacc, ?_⟩
        intro k hk1 hk2
        rcases Nat.eq_or_lt_of_le hk1 with rfl | hk1'
        · exact h'
        · exact hmin k (by omega) hk2

/-- Specification of place_object for an arbitrary acceptance predicate: the
error carrying the child's name is raised if and only if all
MAX_NUM_OF_SAMPLES candidates are rejected, and a success returns the first
accepted attempt index. -/
theorem place_object_spec (accept : Nat → Bool) (name : String) :
    (place_object accept name = Except.error name ↔
      ∀ i, i < MAX_NUM_OF_SAMPLES → accept i = false) ∧
    (∀ j, place_object accept name = Except.ok j →
      j < MAX_NUM_OF_SAMPLES ∧ accept j = true ∧
        ∀ k, k < j → accept k = false) := by
  rcases place_loop_cases accept MAX_NUM_OF_SAMPLES 0 with ⟨heq, hall⟩ | ⟨_, hlt, hacc, hmin⟩
  · have hres : place_object accept name = Except.error name := by
      simp only [place_object, heq, Nat.zero_add]
      rw [if_pos le_rfl]
    constructor
    · rw [hres]
      exact ⟨fun _ i hi => hall i (Nat.zero_le i) (by omega), fun _ => rfl⟩
    · intro j hj
      rw [hres] at hj
      exact absurd hj (by simp)
  · have hres : place_object accept name =
        Except.ok (place_loop accept 0 MAX_NUM_OF_SAMPLES) := by
      simp only [place_object,
        if_neg (by omega : ¬ MAX_NUM_OF_SAMPLES ≤ place_loop accept 0 MAX_NUM_OF_SAMPLES)]
    constructor
    · rw [hres]
      constructor
      · intro hcontra
        exact absurd hcontra (by simp)
      · intro hall
        exact absurd (hall (place_loop accept 0 MAX_NUM_OF_SAMPLES) (by omega))
          (by simp [hacc])
    · intro j hj
      rw [hres] at hj
      have hj' : place_loop accept 0 MAX_NUM_OF_SAMPLES = j := by
        simpa using hj
      subst hj'
      exact ⟨by omega, hacc, fun k hk => hmin k (Nat.zero_le k) hk⟩

/-- Evaluation lemma for place_loop: the loop returns the first accepted
index when one exists inside the remaining budget. -/
theorem place_loop_eq_first (accept : Nat → Bool) :
    ∀ (fuel i j : Nat), i ≤ j → j < i + fuel → accept j = true →
      (∀ k, i ≤ k → k < j → accept k = false) →
      place_loop accept i fuel = j := by
  intro fuel
  induction fuel with
  | zero =>
    intro i j hij hlt
    omega
  | succ n ih =>
    intro i j hij hlt hacc hmin
    rcases Nat.eq_or_lt_of_le hij with rfl | hij'
    · simp [place_loop, hacc]
    · have h0 : accept i = false := hmin i le_rfl hij'
      have hstep : place_loop accept i (n + 1) = place_loop accept (i + 1) n := by
        simp [place_loop, h0]
      rw [hstep]
      exact ih (i + 1) j (by omega) (by omega) hacc (fun k hk1 hk2 => hmin k (by omega) hk2)

/-- Evaluation lemma for place_object: placement succeeds with the first
accepted attempt index. -/
theorem place_object_eq_ok (accept : Nat → Bool) (name : String) (j : Nat)
    (hj : j < MAX_NUM_OF_SAMPLES) (hacc : accept j = true)
    (hmin : ∀ k, k < j → accept k = false) :
    place_object accept name = Except.ok j := by
  have hloop : place_loop accept 0 MAX_NUM_OF_SAMPLES = j :=
    place_loop_eq_first accept MAX_NUM_OF_SAMPLES 0 j (Nat.zero_le j) (by omega) hacc
      (fun k hk1 hk2 => hmin k hk2)
  simp only [place_object, hloop]
  rw [if_neg (by omega)]

/-- Claim C1: each child placement loop (shared by RootNode.place_objects
and ObjectNode.place_children) draws at most MAX_NUM_OF_SAMPLES = 100
candidate poses, stops at the first candidate passing both the containment
test and the collision test, and raises the placement error carrying the
child's name if and only if none of the 100 candidates is accepted. -/
theorem claim_C1_placement_budget (root_local : BBox) (placed : List BBox)
    (child_local : BBox) (cands : Nat → Candidate) (name : String) :
    (place_object (fun i => accept_candidate root_local placed child_local (cands i)) name =
        Except.error name ↔
      ∀ i, i < MAX_NUM_OF_SAMPLES →
        accept_candidate root_local placed child_local (cands i) = false) ∧
    (∀ j, place_object (fun i => accept_candidate root_local placed child_local (cands i)) name =
        Except.ok j →
      j < MAX_NUM_OF_SAMPLES ∧
        accept_candidate root_local placed child_local (cands j) = true ∧
        ∀ k, k < j → accept_candidate root_local placed child_local (cands k) = false) :=
  place_object_spec (fun i => accept_candidate root_local placed child_local (cands i)) name

/-- Witness for claim C1: with an empty surface and a candidate stream whose
attempt 3 is the first one inside the surface, placement succeeds at
attempt 3, having rejected attempts 0, 1 and 2. -/
theorem claim_C1_witness :
    3 < MAX_NUM_OF_SAMPLES ∧
      accept_candidate ⟨0, 6, 0, 6, 0, 1⟩ [] ⟨0, 1, 0, 1, 0, 1⟩
        ((fun i => if i = 3 then ⟨3, 3, ⟨0, 1, 0, 1, 0, 1⟩⟩
                   else ⟨100, 100, ⟨0, 1, 0, 1, 0, 1⟩⟩) 3) = true ∧
      ∀ k, k < 3 →
        accept_candidate ⟨0, 6, 0, 6, 0, 1⟩ [] ⟨0, 1, 0, 1, 0, 1⟩
          ((fun i => if i = 3 then ⟨3, 3, ⟨0, 1, 0, 1, 0, 1⟩⟩
                     else ⟨100, 100, ⟨0, 1, 0, 1, 0, 1⟩⟩) k) = false :=
  (claim_C1_placement_budget ⟨0, 6, 0, 6, 0, 1⟩ [] ⟨0, 1, 0, 1, 0, 1⟩
    (fun i => if i = 3 then ⟨3, 3, ⟨0, 1, 0, 1, 0, 1⟩⟩
              else ⟨100, 100, ⟨0, 1, 0, 1, 0, 1⟩⟩) "cup1").2 3
    (place_object_eq_ok _ "cup1" 3 (by norm_num [MAX_NUM_OF_SAMPLES])
      (by norm_num [accept_candidate, within_root_bbox, in_collision, OBJECT_SCALE])
      (fun k hk => by
        have hne : k ≠ 3 := by omega
        norm_num [accept_candidate, within_root_bbox, in_collision, OBJECT_SCALE, hne]))

/-- Claim C2: within_root_bbox is true if and only if the candidate position
lies strictly inside the surface's bounding box shrunk on every side by
d = min(candidate bbox width, candidate bbox depth) * OBJECT_SCALE; in
particular every point outside that interior rectangle is rejected. -/
theorem claim_C2_within_root_bbox (sb ob : BBox) (x y : ℚ) :
    (within_root_bbox sb ob x y = true ↔
      (sb.x_min + min (ob.x_max - ob.x_min) (ob.y_max - ob.y_min) * OBJECT_SCALE < x ∧
       x < sb.x_max - min (ob.x_max - ob.x_min) (ob.y_max - ob.y_min) * OBJECT_SCALE ∧
       sb.y_min + min (ob.x_max - ob.x_min) (ob.y_max - ob.y_min) * OBJECT_SCALE < y ∧
       y < sb.y_max - min (ob.x_max - ob.x_min) (ob.y_max - ob.y_min) * OBJECT_SCALE)) ∧
    (¬ (sb.x_min + min (ob.x_max - ob.x_min) (ob.y_max - ob.y_min) * OBJECT_SCALE < x ∧
        x < sb.x_max - min (ob.x_max - ob.x_min) (ob.y_max - ob.y_min) * OBJECT_SCALE ∧
        sb.y_min + min (ob.x_max - ob.x_min) (ob.y_max - ob.y_min) * OBJECT_SCALE < y ∧
        y < sb.y_max - min (ob.x_max - ob.x_min) (ob.y_max - ob.y_min) * OBJECT_SCALE) →
      within_root_bbox sb ob x y = false) := by
  constructor
  · simp [within_root_bbox]
  · intro h
    simp only [within_root_bbox]
    rw [if_neg h]

/-- Witness for claim C2: on a 6 by 6 surface with a unit-footprint
candidate, the point (10, 3) lies outside the shrunk interior and is
rejected. -/
theorem claim_C2_witness :
    within_root_bbox ⟨0, 6, 0, 6, 0, 1⟩ ⟨0, 1, 0, 1, 0, 1⟩ 10 3 = false :=
  (claim_C2_within_root_bbox ⟨0, 6, 0, 6, 0, 1⟩ ⟨0, 1, 0, 1, 0, 1⟩ 10 3).2
    (by norm_num [OBJECT_SCALE])

/-- Claim C3: in_collision is true if and only if some previously recorded
world bounding box overlaps the query box in the 2D sense; the z extents of
every box involved are irrelevant, and the result does not depend on the
order in which the placed objects were recorded. -/
theorem claim_C3_in_collision (l : List BBox) (bbox : BBox) :
    (in_collision l bbox = true ↔
      ∃ b ∈ l, bbox.x_max ≥ b.x_min ∧ bbox.x_min ≤ b.x_max ∧
        bbox.y_max ≥ b.y_min ∧ bbox.y_min ≤ b.y_max) ∧
    (∀ (g : BBox → ℚ × ℚ) (zmin zmax : ℚ),
      in_collision (l.map fun b => set_z b (g b).1 (g b).2) (set_z bbox zmin zmax) =
        in_collision l bbox) ∧
    (∀ l2 : List BBox, l.Perm l2 → in_collision l bbox = in_collision l2 bbox) := by
  refine ⟨?_, ?_, ?_⟩
  · simp [in_collision]
  · intro g zmin zmax
    simp only [in_collision, List.any_map]
    rfl
  · intro l2 h
    rw [Bool.eq_iff_iff]
    simp only [in_collision, List.any_eq_true, decide_eq_true_eq]
    constructor
    · rintro ⟨b, hb, hx⟩
      exact ⟨b, h.mem_iff.mp hb, hx⟩
    · rintro ⟨b, hb, hx⟩
      exact ⟨b, h.mem_iff.mpr hb, hx⟩

/-- Witness for claim C3: swapping two recorded boxes leaves the collision
verdict unchanged. -/
theorem claim_C3_witness :
    in_collision [⟨0, 1, 0, 1, 0, 1⟩, ⟨2, 3, 2, 3, 0, 1⟩] ⟨0, 1, 0, 1, 5, 9⟩ =
      in_collision [⟨2, 3, 2, 3, 0, 1⟩, ⟨0, 1, 0, 1, 0, 1⟩] ⟨0, 1, 0, 1, 5, 9⟩ :=
  (claim_C3_in_collision [⟨0, 1, 0, 1, 0, 1⟩, ⟨2, 3, 2, 3, 0, 1⟩] ⟨0, 1, 0, 1, 5, 9⟩).2.2
    [⟨2, 3, 2, 3, 0, 1⟩, ⟨0, 1, 0, 1, 0, 1⟩] (List.Perm.swap _ _ _)

/-- Claim C4: for each of the four diagonal directions, calc_distance_range
(with the any distance class) returns min_dist = sqrt(2 * min(gap_a, gap_b)^2)
plus the clearance c = (min(child width, child depth) * OBJECT_SCALE) / 2,
taking the gaps from the parent position to the parent's own bounding-box
edges, and max_dist = sqrt(2 * min(Gap_a, Gap_b)^2) minus c with the gaps
taken to the root surface's bounding-box edges; right_back uses x - x_min
and y_max - y, and the other quadrants their mirrored gaps. -/
theorem claim_C4_diagonal_ranges (x y : ℚ) (obj_bbox root_bbox object_bbox : BBox) :
    (calc_distance_range x y obj_bbox root_bbox "right_back" "any" object_bbox =
      (Real.sqrt (2 * (min (x - obj_bbox.x_min) (obj_bbox.y_max - y) : ℚ) ^ 2) +
         ((min (object_bbox.x_max - object_bbox.x_min)
               (object_bbox.y_max - object_bbox.y_min) * OBJECT_SCALE / 2 : ℚ) : ℝ),
       Real.sqrt (2 * (min (x - root_bbox.x_min) (root_bbox.y_max - y) : ℚ) ^ 2) -
         ((min (object_bbox.x_max - object_bbox.x_min)
               (object_bbox.y_max - object_bbox.y_min) * OBJECT_SCALE / 2 : ℚ) : ℝ))) ∧
    (calc_distance_range x y obj_bbox root_bbox "right_front" "any" object_bbox =
      (Real.sqrt (2 * (min (obj_bbox.x_max - x) (obj_bbox.y_max - y) : ℚ) ^ 2) +
         ((min (object_bbox.x_max - object_bbox.x_min)
               (object_bbox.y_max - object_bbox.y_min) * OBJECT_SCALE / 2 : ℚ) : ℝ),
       Real.sqrt (2 * (min (root_bbox.x_max - x) (root_bbox.y_max - y) : ℚ) ^ 2) -
         ((min (object_bbox.x_max - object_bbox.x_min)
               (object_bbox.y_max - object_bbox.y_min) * OBJECT_SCALE / 2 : ℚ) : ℝ))) ∧
    (calc_distance_range x y obj_bbox root_bbox "left_front" "any" object_bbox =
      (Real.sqrt (2 * (min (obj_bbox.x_max - x) (y - obj_bbox.y_min) : ℚ) ^ 2) +
         ((min (object_bbox.x_max - object_bbox.x_min)
               (object_bbox.y_max - object_bbox.y_min) * OBJECT_SCALE / 2 : ℚ) : ℝ),
       Real.sqrt (2 * (min (root_bbox.x_max - x) (y - root_bbox.y_min) : ℚ) ^ 2) -
         ((min (object_bbox.x_max - object_bbox.x_min)
               (object_bbox.y_max - object_bbox.y_min) * OBJECT_SCALE / 2 : ℚ) : ℝ))) ∧
    (calc_distance_range x y obj_bbox root_bbox "left_back" "any" object_bbox =
      (Real.sqrt (2 * (min (x - obj_bbox.x_min) (y - obj_bbox.y_min) : ℚ) ^ 2) +
         ((min (object_bbox.x_max - object_bbox.x_min)
               (object_bbox.y_max - object_bbox.y_min) * OBJECT_SCALE / 2 : ℚ) : ℝ),
       Real.sqrt (2 * (min (x - root_bbox.x_min) (y - root_bbox.y_min) : ℚ) ^ 2) -
         ((min (object_bbox.x_max - object_bbox.x_min)
               (object_bbox.y_max - object_bbox.y_min) * OBJECT_SCALE / 2 : ℚ) : ℝ))) := by
  refine ⟨?_, ?_, ?_, ?_⟩ <;> simp [calc_distance_range, calc_distance_base]

/-- Counterexample for claim C5: for the back direction with parent at
x = 4, parent box edge at 3, surface edge at 0 and clearance 1/2, the any
class gives [3/2, 7/2], the close class gives max_dist = 2, but the claimed
formula min + (max - min) * 3/4 would give 3. -/
theorem claim_C5_counterexample :
    (calc_distance_range 4 0 ⟨3, 5, 0, 1, 0, 1⟩ ⟨0, 8, 0, 8, 0, 1⟩ "back" "close"
        ⟨0, 1, 0, 2, 0, 1⟩).2 ≠
      (calc_distance_range 4 0 ⟨3, 5, 0, 1, 0, 1⟩ ⟨0, 8, 0, 8, 0, 1⟩ "back" "any"
          ⟨0, 1, 0, 2, 0, 1⟩).1 +
        ((calc_distance_range 4 0 ⟨3, 5, 0, 1, 0, 1⟩ ⟨0, 8, 0, 8, 0, 1⟩ "back" "any"
            ⟨0, 1, 0, 2, 0, 1⟩).2 -
         (calc_distance_range 4 0 ⟨3, 5, 0, 1, 0, 1⟩ ⟨0, 8, 0, 8, 0, 1⟩ "back" "any"
            ⟨0, 1, 0, 2, 0, 1⟩).1) * (3 / 4) := by
  have hclose : (calc_distance_range 4 0 ⟨3, 5, 0, 1, 0, 1⟩ ⟨0, 8, 0, 8, 0, 1⟩ "back" "close"
      ⟨0, 1, 0, 2, 0, 1⟩).2 = 2 := by
    simp [calc_distance_range, calc_distance_base, OBJECT_SCALE]
    norm_num
  have hany : calc_distance_range 4 0 ⟨3, 5, 0, 1, 0, 1⟩ ⟨0, 8, 0, 8, 0, 1⟩ "back" "any"
      ⟨0, 1, 0, 2, 0, 1⟩ = (3 / 2, 7 / 2) := by
    simp [calc_distance_range, calc_distance_base, OBJECT_SCALE, Prod.ext_iff]
    norm_num
  rw [hclose, hany]
  norm_num

/-- Claim C5 as amended: the two-step midpoint averaging of the close
distance class narrows the interval to one quarter of its length, namely
max_dist becomes min_dist + (max_dist_any - min_dist) * 1/4 (not 3/4), with
min_dist unchanged. -/
theorem claim_C5_close_quarter (x y : ℚ) (obj_bbox root_bbox object_bbox : BBox)
    (direction : String) :
    calc_distance_range x y obj_bbox root_bbox direction "close" object_bbox =
      ((calc_distance_range x y obj_bbox root_bbox direction "any" object_bbox).1,
       (calc_distance_range x y obj_bbox root_bbox direction "any" object_bbox).1 +
         ((calc_distance_range x y obj_bbox root_bbox direction "any" object_bbox).2 -
          (calc_distance_range x y obj_bbox root_bbox direction "any" object_bbox).1) *
           (1 / 4)) := by
  simp [calc_distance_range]
  ring

/-- Counterexample for claim C6: when the any-class interval is inverted
(min_dist = 3 > max_dist = -1, reachable for a large child close to the
surface edge), the close class yields max_dist = 2, strictly greater than
the any-class max_dist. -/
theorem claim_C6_counterexample :
    (calc_distance_range 1 0 ⟨0, 2, 0, 1, 0, 1⟩ ⟨0, 8, 0, 8, 0, 1⟩ "back" "close"
        ⟨0, 4, 0, 5, 0, 1⟩).2 >
      (calc_distance_range 1 0 ⟨0, 2, 0, 1, 0, 1⟩ ⟨0, 8, 0, 8, 0, 1⟩ "back" "any"
          ⟨0, 4, 0, 5, 0, 1⟩).2 := by
  have hclose : (calc_distance_range 1 0 ⟨0, 2, 0, 1, 0, 1⟩ ⟨0, 8, 0, 8, 0, 1⟩ "back" "close"
      ⟨0, 4, 0, 5, 0, 1⟩).2 = 2 := by
    simp [calc_distance_range, calc_distance_base, OBJECT_SCALE]
    norm_num
  have hany : (calc_distance_range 1 0 ⟨0, 2, 0, 1, 0, 1⟩ ⟨0, 8, 0, 8, 0, 1⟩ "back" "any"
      ⟨0, 4, 0, 5, 0, 1⟩).2 = -1 := by
    simp [calc_distance_range, calc_distance_base, OBJECT_SCALE]
    norm_num
  rw [hclose, hany]
  norm_num

/-- Claim C6 as amended: whenever the any-class interval is proper
(min_dist at most max_dist), the close class yields a max_dist at most the
any-class max_dist and leaves min_dist unchanged. -/
theorem claim_C6_close_within (x y : ℚ) (obj_bbox root_bbox object_bbox : BBox)
    (direction : String)
    (h : (calc_distance_range x y obj_bbox root_bbox direction "any" object_bbox).1 ≤
         (calc_distance_range x y obj_bbox root_bbox direction "any" object_bbox).2) :
    (calc_distance_range x y obj_bbox root_bbox direction "close" object_bbox).2 ≤
      (calc_distance_range x y obj_bbox root_bbox direction "any" object_bbox).2 ∧
    (calc_distance_range x y obj_bbox root_bbox direction "close" object_bbox).1 =
      (calc_distance_range x y obj_bbox root_bbox direction "any" object_bbox).1 := by
  simp only [calc_distance_range] at h ⊢
  simp only [reduceIte] at h ⊢
  rw [if_neg (show ¬ ("any" : String) = "close" by decide)] at h
  constructor
  · rw [if_neg (show ¬ ("any" : String) = "close" by decide)]
    linarith
  · trivial

/-- Witness for claim C6: a proper interval [3/2, 5/2] for the back
direction, where the close class indeed does not enlarge the maximum. -/
theorem claim_C6_witness :
    (calc_distance_range 3 0 ⟨2, 4, 0, 1, 0, 1⟩ ⟨0, 8, 0, 8, 0, 1⟩ "back" "close"
        ⟨0, 1, 0, 1, 0, 1⟩).2 ≤
      (calc_distance_range 3 0 ⟨2, 4, 0, 1, 0, 1⟩ ⟨0, 8, 0, 8, 0, 1⟩ "back" "any"
          ⟨0, 1, 0, 1, 0, 1⟩).2 :=
  (claim_C6_close_within 3 0 ⟨2, 4, 0, 1, 0, 1⟩ ⟨0, 8, 0, 8, 0, 1⟩ ⟨0, 1, 0, 1, 0, 1⟩ "back"
    (by
      simp [calc_distance_range, calc_distance_base, OBJECT_SCALE]
      norm_num)).1

/-- Claim C7: calc_anchors places the nine named anchors at
bbox_min + k * (extent / 6) per axis with k in {1, 3, 5}, sets
x_sigma = (width / 6)^2 and y_sigma = (height / 6)^2, and on a local box
spanning 0..6 on both axes yields center (3, 3), north_west (1, 1) and
south_east (5, 5). -/
theorem claim_C7_anchor_grid (b : BBox) :
    ((calc_anchors b).x_sigma = ((b.x_max - b.x_min) / 6) ^ 2 ∧
     (calc_anchors b).y_sigma = ((b.y_max - b.y_min) / 6) ^ 2) ∧
    ((calc_anchors b).north =
        (b.x_min + 1 * ((b.x_max - b.x_min) / 6), b.y_min + 3 * ((b.y_max - b.y_min) / 6)) ∧
     (calc_anchors b).north_east =
        (b.x_min + 1 * ((b.x_max - b.x_min) / 6), b.y_min + 5 * ((b.y_max - b.y_min) / 6)) ∧
     (calc_anchors b).east =
        (b.x_min + 3 * ((b.x_max - b.x_min) / 6), b.y_min + 5 * ((b.y_max - b.y_min) / 6)) ∧
     (calc_anchors b).south_east =
        (b.x_min + 5 * ((b.x_max - b.x_min) / 6), b.y_min + 5 * ((b.y_max - b.y_min) / 6)) ∧
     (calc_anchors b).south =
        (b.x_min + 5 * ((b.x_max - b.x_min) / 6), b.y_min + 3 * ((b.y_max - b.y_min) / 6)) ∧
     (calc_anchors b).south_west =
        (b.x_min + 5 * ((b.x_max - b.x_min) / 6), b.y_min + 1 * ((b.y_max - b.y_min) / 6)) ∧
     (calc_anchors b).west =
        (b.x_min + 3 * ((b.x_max - b.x_min) / 6), b.y_min + 1 * ((b.y_max - b.y_min) / 6)) ∧
     (calc_anchors b).north_west =
        (b.x_min + 1 * ((b.x_max - b.x_min) / 6), b.y_min + 1 * ((b.y_max - b.y_min) / 6)) ∧
     (calc_anchors b).center =
        (b.x_min + 3 * ((b.x_max - b.x_min) / 6), b.y_min + 3 * ((b.y_max - b.y_min) / 6))) ∧
    ((calc_anchors ⟨0, 6, 0, 6, 0, 1⟩).center = (3, 3) ∧
     (calc_anchors ⟨0, 6, 0, 6, 0, 1⟩).north_west = (1, 1) ∧
     (calc_anchors ⟨0, 6, 0, 6, 0, 1⟩).south_east = (5, 5)) := by
  refine ⟨⟨?_, ?_⟩, ⟨rfl, rfl, rfl, rfl, rfl, rfl, rfl, rfl, rfl⟩,
    by norm_num [calc_anchors], by norm_num [calc_anchors], by norm_num [calc_anchors]⟩
  · simp [calc_anchors]
    ring
  · simp [calc_anchors]
    ring

/-- Counterexample for claim C8: looking up the unrecognized anchor name
bogus silently returns the center anchor, and the unrecognized direction
name bogus silently returns the front angle; neither lookup fails with an
UnknownAnchor or UnknownDirection error (no such error exists anywhere in
the code, and get_anchor and get_direction have no error path at all). -/
theorem claim_C8_counterexample :
    get_anchor (calc_anchors ⟨0, 6, 0, 6, 0, 1⟩) "bogus" =
      (calc_anchors ⟨0, 6, 0, 6, 0, 1⟩).center ∧
    get_direction "bogus" = direction_front :=
  ⟨rfl, rfl⟩

/-- Claim C8 as amended: looking up an anchor name outside the eight
explicitly tested compass names silently falls back to the center anchor,
and a direction name outside the seven explicitly tested names silently
falls back to the front angle; no error is raised. -/
theorem claim_C8_silent_fallback :
    (∀ (a : Anchors) (s : String),
      s ∉ (["north", "north_east", "east", "south_east",
            "south", "south_west", "west", "north_west"] : List String) →
      get_anchor a s = a.center) ∧
    (∀ s : String,
      s ∉ (["back", "right_back", "right", "right_front",
            "left_front", "left", "left_back"] : List String) →
      get_direction s = direction_front) := by
  constructor
  · intro a s h
    simp at h
    simp [get_anchor, h]
  · intro s h
    simp at h
    simp [get_direction, h]

/-- Witness for claim C8: the unrecognized name teapot falls back to the
center anchor and the front angle. -/
theorem claim_C8_witness :
    get_anchor (calc_anchors ⟨0, 6, 0, 6, 0, 1⟩) "teapot" =
      (calc_anchors ⟨0, 6, 0, 6, 0, 1⟩).center ∧
    get_direction "teapot" = direction_front :=
  ⟨claim_C8_silent_fallback.1 (calc_anchors ⟨0, 6, 0, 6, 0, 1⟩) "teapot" (by decide),
   claim_C8_silent_fallback.2 "teapot" (by decide)⟩

/-- Counterexample for claim C9: constructing a bounding box from only 7
corner points fails with Python's generic index error, which is not a
dedicated InvalidGeometry error. -/
theorem claim_C9_counterexample :
    mkBBox [(0, 0, 0), (1, 0, 0), (1, 1, 0), (0, 1, 0), (0, 0, 1), (1, 0, 1), (1, 1, 1)] =
      Except.error GeometryError.indexOutOfRange ∧
    GeometryError.indexOutOfRange ≠ GeometryError.invalidGeometry := by
  constructor
  · have h7 : (([(0, 0, 0), (1, 0, 0), (1, 1, 0), (0, 1, 0), (0, 0, 1), (1, 0, 1), (1, 1, 1)] :
        List (ℚ × ℚ × ℚ)).mergeSort (fun a b => a.1 ≤ b.1))[7]? = none := by
      apply List.getElem?_eq_none
      simp [List.length_mergeSort]
    simp only [mkBBox]
    split
    · rename_i x0 x7 y0 y7 z0 z7 heq1 heq2 heq3 heq4 heq5 heq6
      rw [h7] at heq2
      exact absurd heq2 (by simp)
    · rfl
  · decide

/-- Claim C9 as amended: constructing a bounding box from fewer than 8
corner points always fails with the generic index error (the code defines no
InvalidGeometry error), and no bounding box, partial or otherwise,
results. -/
theorem claim_C9_short_input (pts : List (ℚ × ℚ × ℚ)) (h : pts.length < 8) :
    mkBBox pts = Except.error GeometryError.indexOutOfRange := by
  have h7 : (pts.mergeSort (fun a b => a.1 ≤ b.1))[7]? = none := by
    apply List.getElem?_eq_none
    simpa [List.length_mergeSort] using (by omega : pts.length ≤ 7)
  simp only [mkBBox]
  split
  · rename_i x0 x7 y0 y7 z0 z7 heq1 heq2 heq3 heq4 heq5 heq6
    rw [h7] at heq2
    exact absurd heq2 (by simp)
  · rfl

/-- Witness for claim C9: three corner points are fewer than 8, and the
construction fails with the index error. -/
theorem claim_C9_witness :
    mkBBox [(0, 0, 0), (1, 1, 1), (2, 2, 2)] = Except.error GeometryError.indexOutOfRange :=
  claim_C9_short_input [(0, 0, 0), (1, 1, 1), (2, 2, 2)] (by decide)

/-- Claim C10: calc_distance_range guarantees no ordering between min_dist
and max_dist: a parent close to the surface edge with a large child yields
the inverted interval [3, -1], and the distance draw of place_children
(modelled by the total function place_children_sample, mirroring
random.uniform which applies no bounds check) proceeds on the inverted
interval without raising any error or detecting the empty range. -/
theorem claim_C10_inverted_interval :
    calc_distance_range 1 0 ⟨0, 2, 0, 1, 0, 1⟩ ⟨0, 8, 0, 8, 0, 1⟩ "back" "any"
        ⟨0, 4, 0, 5, 0, 1⟩ = (3, -1) ∧
    (calc_distance_range 1 0 ⟨0, 2, 0, 1, 0, 1⟩ ⟨0, 8, 0, 8, 0, 1⟩ "back" "any"
        ⟨0, 4, 0, 5, 0, 1⟩).1 >
      (calc_distance_range 1 0 ⟨0, 2, 0, 1, 0, 1⟩ ⟨0, 8, 0, 8, 0, 1⟩ "back" "any"
          ⟨0, 4, 0, 5, 0, 1⟩).2 ∧
    ∀ t : ℝ,
      place_children_sample
          (calc_distance_range 1 0 ⟨0, 2, 0, 1, 0, 1⟩ ⟨0, 8, 0, 8, 0, 1⟩ "back" "any"
              ⟨0, 4, 0, 5, 0, 1⟩).1
          (calc_distance_range 1 0 ⟨0, 2, 0, 1, 0, 1⟩ ⟨0, 8, 0, 8, 0, 1⟩ "back" "any"
              ⟨0, 4, 0, 5, 0, 1⟩).2 t =
        3 - 4 * t := by
  have h : calc_distance_range 1 0 ⟨0, 2, 0, 1, 0, 1⟩ ⟨0, 8, 0, 8, 0, 1⟩ "back" "any"
      ⟨0, 4, 0, 5, 0, 1⟩ = (3, -1) := by
    simp [calc_distance_range, calc_distance_base, OBJECT_SCALE, Prod.ext_iff]
    norm_num
  refine ⟨h, ?_, ?_⟩
  · rw [h]
    norm_num
  · intro t
    rw [h]
    simp [place_children_sample]
    ring
